import Mathlib

/-!
Verification of the store-rating platform (Task_Tracker).

This file gives a shallow embedding of the server core:
* the data model of `shared/schema.ts` (tables `users`, `stores`, `ratings`
  together with the zod validation schemas),
* the storage layer of `server/storage.ts` (class `DatabaseStorage`), with
  PostgreSQL-level behaviour made explicit: the `unique(userId, storeId)`
  constraint on `ratings` drives the `onConflictDoUpdate` upsert, and the
  plain `references()` foreign keys (no `onDelete: 'cascade'`) reject
  deletes of still-referenced rows,
* the HTTP route handlers of `server/routes.ts`, including the
  `requireAuth` / `requireRole` middleware chain and the error responses
  (HTTP status plus message) each handler produces.

Timestamps are modelled as natural numbers, rating values as rationals
(JavaScript numbers reaching the zod layer need not be integers), and the
external bcrypt hash/verify pair as explicit function parameters, per the
spec's external-collaborator contract.  Concurrency over the atomic
per-key upsert is modelled as an arbitrary interleaving, i.e. an arbitrary
finite sequence of the atomic operations.
-/

namespace TaskTracker

/-- Row of the `users` table of `shared/schema.ts`. -/
structure User where
  id : String
  email : Option String
  firstName : Option String
  lastName : Option String
  profileImageUrl : Option String
  name : Option String
  address : Option String
  password : Option String
  role : String
  createdAt : Nat
  updatedAt : Nat
deriving DecidableEq, Repr

/-- Row of the `stores` table of `shared/schema.ts`; `ownerId` is a nullable
reference to `users.id`. -/
structure Store where
  id : Nat
  name : String
  email : String
  address : String
  ownerId : Option String
  createdAt : Nat
  updatedAt : Nat
deriving DecidableEq, Repr

/-- Row of the `ratings` table of `shared/schema.ts`.  The table carries
`unique().on(userId, storeId)` and non-null references to `users.id` and
`stores.id`.  The `rating` column is a PostgreSQL `integer`, so a
persisted value is always an integer; the zod layer's JavaScript number
only reaches this column through the driver's int4 parameter conversion
(see `createOrUpdateRating`). -/
structure Rating where
  id : Nat
  userId : String
  storeId : Nat
  value : Int
  createdAt : Nat
  updatedAt : Nat
deriving DecidableEq, Repr

/-- State of the three persistent tables, plus the `serial` counter feeding
fresh `ratings.id` values. -/
structure DB where
  users : List User
  stores : List Store
  ratings : List Rating
  nextRatingId : Nat
deriving DecidableEq, Repr

/-- Database-level failure: a foreign-key (or similar) constraint
violation, or the int4 parameter conversion rejecting a non-integral
number bound to an `integer` column.  The route layer catches both and
turns them into HTTP 500. -/
inductive DbError where
  | fkViolation : DbError
  | intConversion : DbError
deriving DecidableEq, Repr

/-! ### Validation (zod schemas of `shared/schema.ts`) -/

/-- Special characters accepted by the password regex of
`insertUserSchema` / `updatePasswordSchema`. -/
def specialChars : List Char :=
  ['!', '@', '#', '$', '%', '^', '&', '*', '(', ')', ',', '.', '?', '"',
   ':', '\x7b', '\x7d', '|', '<', '>']

/-- Password rule shared by `insertUserSchema` and `updatePasswordSchema`:
length 8–16, at least one uppercase letter, at least one special character. -/
def passwordValid (s : String) : Bool :=
  8 ≤ s.length && s.length ≤ 16 &&
    s.data.any (fun c => c.isUpper) &&
    s.data.any (fun c => specialChars.contains c)

/-- Abstraction of `z.string().email()`: the exact zod e-mail regex is not
reproduced; only the presence of an `@` is modelled, which is all the
claims depend on. -/
def emailFormatOk (s : String) : Bool :=
  s.data.contains '@'

/-- Role literals accepted by `insertUserSchema`'s `z.enum` and by the
role-update route. -/
def roleEnum : List String := ["admin", "normal", "store_owner"]

/-- Body of the public registration / admin user-creation request, after
JSON decoding.  `role` is optional because the column has a default. -/
structure RegisterBody where
  name : String
  email : String
  address : String
  password : String
  role : Option String
deriving DecidableEq, Repr

/-- Validation performed by `insertUserSchema.parse`. -/
def insertUserValid (b : RegisterBody) : Bool :=
  20 ≤ b.name.length && b.name.length ≤ 60 &&
    emailFormatOk b.email &&
    b.address.length ≤ 400 &&
    passwordValid b.password &&
    (match b.role with
     | none => true
     | some r => roleEnum.contains r)

/-- Body of a rating submission after JSON decoding (the route injects
`userId` from the session, so the body carries only `storeId` and
`rating`). -/
structure RatingBody where
  storeId : Nat
  rating : Rat
deriving DecidableEq, Repr

/-- Validation performed by `insertRatingSchema.parse` on the rating value:
`z.number().min(1).max(5)` — note the absence of an integrality check. -/
def ratingValueOk (v : Rat) : Bool :=
  1 ≤ v && v ≤ 5

/-- Body of the password-change request. -/
structure PasswordBody where
  currentPassword : String
  newPassword : String
deriving DecidableEq, Repr

/-- Validation performed by `updatePasswordSchema.parse`. -/
def updatePasswordValid (b : PasswordBody) : Bool :=
  1 ≤ b.currentPassword.length && passwordValid b.newPassword

/-! ### Storage layer (`server/storage.ts`, class `DatabaseStorage`) -/

/-- Key predicate of the `unique(userId, storeId)` constraint on `ratings`. -/
def keyMatch (u : String) (s : Nat) (r : Rating) : Bool :=
  r.userId = u && r.storeId = s

/-- Method `getUser`: `select from users where users.id = id`. -/
def getUser (db : DB) (id : String) : Option User :=
  db.users.find? (fun u => u.id = id)

/-- Method `getUserByEmail`. -/
def getUserByEmail (db : DB) (email : String) : Option User :=
  db.users.find? (fun u => u.email = some email)

/-- Insert data reaching `createLocalUser` (after the route layer has fixed
the role). -/
structure InsertUser where
  name : String
  email : String
  address : String
  password : String
  role : String
deriving DecidableEq, Repr

/-- Method `createLocalUser`: hashes the password, generates a fresh id
(`local_${Date.now()}_${random}`, supplied here as `freshId`) and inserts
the row. -/
def createLocalUser (db : DB) (now : Nat) (freshId : String)
    (hashFn : String → String) (d : InsertUser) : DB × User :=
  let u : User :=
    { id := freshId, email := some d.email, firstName := none,
      lastName := none, profileImageUrl := none, name := some d.name,
      address := some d.address, password := some (hashFn d.password),
      role := d.role, createdAt := now, updatedAt := now }
  ({ db with users := db.users ++ [u] }, u)

/-- Method `updateUserRole`: `update users set role, updatedAt where id`. -/
def updateUserRole (db : DB) (now : Nat) (id : String) (role : String) : DB :=
  { db with
    users := db.users.map (fun u =>
      if u.id = id then { u with role := role, updatedAt := now } else u) }

/-- Method `deleteUser`: `delete from users where id`.  The `ratings.userId`
and `stores.ownerId` foreign keys have no `onDelete` action, so PostgreSQL
rejects the delete while referencing rows exist. -/
def deleteUser (db : DB) (id : String) : Except DbError DB :=
  if db.ratings.any (fun r => r.userId = id) ||
      db.stores.any (fun s => s.ownerId = some id) then
    .error .fkViolation
  else
    .ok { db with users := db.users.filter (fun u => !(u.id = id : Bool)) }

/-- Method `updatePassword`: fetch the user, compare the current password
against the stored hash with `bcrypt.compare` (parameter `verify`), and on
success store the `bcrypt.hash` of the new password.  Returns the success
flag together with the resulting database. -/
def updatePassword (db : DB) (now : Nat) (verify : String → String → Bool)
    (hashFn : String → String) (userId currentPassword newPassword : String) :
    Bool × DB :=
  match getUser db userId with
  | none => (false, db)
  | some u =>
    match u.password with
    | none => (false, db)
    | some hash =>
      if verify currentPassword hash then
        (true,
         { db with
           users := db.users.map (fun x =>
             if x.id = userId then
               { x with password := some (hashFn newPassword), updatedAt := now }
             else x) })
      else (false, db)

/-- Method `getStoreById`. -/
def getStoreById (db : DB) (id : Nat) : Option Store :=
  db.stores.find? (fun s => s.id = id)

/-- Method `getStoresByOwner`. -/
def getStoresByOwner (db : DB) (ownerId : String) : List Store :=
  db.stores.filter (fun s => s.ownerId = some ownerId)

/-- Method `deleteStore`: `delete from stores where id`.  The
`ratings.storeId` reference has no `onDelete: 'cascade'`, so the delete is
rejected whenever a rating still references the store. -/
def deleteStore (db : DB) (id : Nat) : Except DbError DB :=
  if db.ratings.any (fun r => r.storeId = id) then
    .error .fkViolation
  else
    .ok { db with stores := db.stores.filter (fun s => !(s.id = id : Bool)) }

/-- Insert data reaching `createOrUpdateRating`: the value is still the
JavaScript number the zod layer validated, serialized by the driver as a
parameter for the `integer` column. -/
structure InsertRating where
  userId : String
  storeId : Nat
  value : Rat
deriving DecidableEq, Repr

/-- Method `createOrUpdateRating`: `insert into ratings ... on conflict
(userId, storeId) do update set rating, updatedAt ... returning`.  The
bound rating parameter must first pass PostgreSQL's int4 input conversion
— a non-integral number makes the whole statement fail before it runs.
Then a conflict on the unique key updates the conflicting row, preserving
`id` and `createdAt`; otherwise PostgreSQL checks the two foreign keys
and inserts a fresh row with `createdAt = updatedAt = now`. -/
def createOrUpdateRating (db : DB) (now : Nat) (d : InsertRating) :
    Except DbError (DB × Rating) :=
  if d.value.den = 1 then
    match db.ratings.find? (keyMatch d.userId d.storeId) with
    | some old =>
      .ok
        ({ db with
           ratings := db.ratings.map (fun r =>
             if keyMatch d.userId d.storeId r then
               { r with value := d.value.num, updatedAt := now }
             else r) },
         { old with value := d.value.num, updatedAt := now })
    | none =>
      if db.users.any (fun u => u.id = d.userId) &&
          db.stores.any (fun s => s.id = d.storeId) then
        let r : Rating :=
          { id := db.nextRatingId, userId := d.userId, storeId := d.storeId,
            value := d.value.num, createdAt := now, updatedAt := now }
        .ok ({ db with ratings := db.ratings ++ [r],
                       nextRatingId := db.nextRatingId + 1 }, r)
      else .error .fkViolation
  else .error .intConversion

/-- Minimal user view joined onto ratings by `getRatingsByStore`. -/
structure UserView where
  id : String
  name : Option String
  email : Option String
deriving DecidableEq, Repr

/-- Insert an element into a list sorted descending by `key`. -/
def insertDescBy (key : α → Nat) (a : α) : List α → List α
  | [] => [a]
  | b :: t => if key b ≤ key a then a :: b :: t else b :: insertDescBy key a t

/-- Sort a list descending by `key` (insertion sort, modelling SQL
`order by ... desc`). -/
def sortDescBy (key : α → Nat) : List α → List α
  | [] => []
  | a :: t => insertDescBy key a (sortDescBy key t)

/-- Method `getRatingsByStore`: ratings of the store inner-joined with
their users, ordered by `createdAt` descending. -/
def getRatingsByStore (db : DB) (storeId : Nat) : List (Rating × UserView) :=
  sortDescBy (fun p => p.1.createdAt)
    ((db.ratings.filter (fun r => r.storeId = storeId)).filterMap (fun r =>
      match getUser db r.userId with
      | some u => some (r, ⟨u.id, u.name, u.email⟩)
      | none => none))

/-- Method `getUserRatingForStore`. -/
def getUserRatingForStore (db : DB) (userId : String) (storeId : Nat) :
    Option Rating :=
  db.ratings.find? (keyMatch userId storeId)

/-- Method `getStoreStats`: `COALESCE(AVG(rating), 0)` and `COUNT(id)` over
the store's ratings; SQL `AVG` is NULL on the empty set, `COALESCE` maps
that to 0, and `Number(..) || 0` leaves a numeric value unchanged. -/
def getStoreStats (db : DB) (storeId : Nat) : Rat × Nat :=
  let rs := db.ratings.filter (fun r => r.storeId = storeId)
  let avg : Option Rat :=
    if rs.length = 0 then none
    else some ((rs.map (fun r => (r.value : Rat))).sum / (rs.length : Rat))
  (avg.getD 0, rs.length)

/-- Method `getDashboardStats`: `(totalUsers, totalStores, totalRatings)`. -/
def getDashboardStats (db : DB) : Nat × Nat × Nat :=
  (db.users.length, db.stores.length, db.ratings.length)

/-! ### Route layer (`server/routes.ts`) -/

/-- HTTP error responses produced by the route handlers, with their status
and message.  `notFound` belongs to the error taxonomy (HTTP 404) but is
produced by none of the handlers modelled here. -/
inductive ApiError where
  | unauthenticated : String → ApiError
  | forbidden : String → ApiError
  | badRequest : String → ApiError
  | notFound : String → ApiError
  | internalError : ApiError
deriving DecidableEq, Repr

/-- HTTP status code of each error response. -/
def ApiError.status : ApiError → Nat
  | .unauthenticated _ => 401
  | .forbidden _ => 403
  | .badRequest _ => 400
  | .notFound _ => 404
  | .internalError => 500

/-- Data the login/registration handlers store in the express session:
`session.userId` and `session.userRole` (the role snapshot at session
creation). -/
structure SessionData where
  userId : String
  userRole : String
deriving DecidableEq, Repr

/-- Middleware `requireAuth`: rejects a missing session or a falsy
`session.userId` with 401 "Unauthorized", then loads the current user row
from the database and rejects a dangling `userId` with 401
"User not found"; on success the handler receives the freshly loaded user
as `currentUser`. -/
def requireAuth (db : DB) (sess : Option SessionData) : Except ApiError User :=
  match sess with
  | none => .error (.unauthenticated "Unauthorized")
  | some s =>
    if s.userId = "" then .error (.unauthenticated "Unauthorized")
    else
      match getUser db s.userId with
      | none => .error (.unauthenticated "User not found")
      | some u => .ok u

/-- Middleware `requireRole(roles)`: 403 "Insufficient permissions" unless
`currentUser.role` is in the list. -/
def requireRole (roles : List String) (u : User) : Except ApiError Unit :=
  if roles.contains u.role then .ok () else .error (.forbidden "Insufficient permissions")

/-- Composition of `requireAuth` and `requireRole` as applied to every
role-gated route. -/
def authRole (db : DB) (sess : Option SessionData) (roles : List String) :
    Except ApiError User :=
  match requireAuth db sess with
  | .error e => .error e
  | .ok u =>
    match requireRole roles u with
    | .error e => .error e
    | .ok _ => .ok u

/-- Whether the `requireAuth` / `requireRole` chain lets the request
through. -/
def authAllowed (db : DB) (sess : Option SessionData) (roles : List String) :
    Bool :=
  match authRole db sess roles with
  | .ok _ => true
  | .error _ => false

/-- Handler `POST /api/auth/register`: validate with `insertUserSchema`,
reject an existing e-mail, create the user with the role forced to
"normal", then store `userId` and the role snapshot in the session. -/
def register (db : DB) (now : Nat) (freshId : String)
    (hashFn : String → String) (body : RegisterBody) :
    Except ApiError (User × SessionData) × DB :=
  if insertUserValid body then
    match getUserByEmail db body.email with
    | some _ => (.error (.badRequest "User already exists with this email"), db)
    | none =>
      let p := createLocalUser db now freshId hashFn
        { name := body.name, email := body.email, address := body.address,
          password := body.password, role := "normal" }
      (.ok (p.2, { userId := p.2.id, userRole := p.2.role }), p.1)
  else (.error (.badRequest "Validation error"), db)

/-- Handler `PUT /api/auth/password`: `requireAuth`, validate with
`updatePasswordSchema`, call `storage.updatePassword`, and map a `false`
result to 400 "Current password is incorrect". -/
def putPassword (db : DB) (now : Nat) (verify : String → String → Bool)
    (hashFn : String → String) (sess : Option SessionData)
    (body : PasswordBody) : Except ApiError Unit × DB :=
  match requireAuth db sess with
  | .error e => (.error e, db)
  | .ok u =>
    if updatePasswordValid body then
      let r := updatePassword db now verify hashFn u.id
        body.currentPassword body.newPassword
      if r.1 then (.ok (), r.2)
      else (.error (.badRequest "Current password is incorrect"), db)
    else (.error (.badRequest "Validation error"), db)

/-- Handler `GET /api/admin/stats`: `requireAuth`, `requireRole(['admin'])`,
then `getDashboardStats`. -/
def adminStats (db : DB) (sess : Option SessionData) :
    Except ApiError (Nat × Nat × Nat) :=
  match authRole db sess ["admin"] with
  | .error e => .error e
  | .ok _ => .ok (getDashboardStats db)

/-- Handler `DELETE /api/admin/stores/:id`: `requireAuth`,
`requireRole(['admin'])`, then `storage.deleteStore`; a storage failure is
caught and surfaced as 500. -/
def deleteStoreRoute (db : DB) (sess : Option SessionData) (id : Nat) :
    Except ApiError Unit × DB :=
  match authRole db sess ["admin"] with
  | .error e => (.error e, db)
  | .ok _ =>
    match deleteStore db id with
    | .error _ => (.error .internalError, db)
    | .ok db' => (.ok (), db')

/-- Handler `POST /api/ratings`: `requireAuth`, `requireRole(['normal'])`,
parse `insertRatingSchema` on the body with `userId` injected from the
session, then `storage.createOrUpdateRating`; a storage failure (e.g. the
foreign-key violation for a nonexistent store) is caught and surfaced as
500. -/
def postRatings (db : DB) (now : Nat) (sess : Option SessionData)
    (body : RatingBody) : Except ApiError Rating × DB :=
  match authRole db sess ["normal"] with
  | .error e => (.error e, db)
  | .ok u =>
    if ratingValueOk body.rating then
      match createOrUpdateRating db now
          { userId := u.id, storeId := body.storeId, value := body.rating } with
      | .error _ => (.error .internalError, db)
      | .ok (db', r) => (.ok r, db')
    else (.error (.badRequest "Validation error"), db)

/-- Handler `GET /api/store-owner/ratings/:storeId`: `requireAuth`,
`requireRole(['store_owner'])`, then the ownership check
`!store || store.ownerId !== user.id` answered with 403 "Access denied";
on success the ratings list and the store stats. -/
def ownerStoreRatings (db : DB) (sess : Option SessionData) (storeId : Nat) :
    Except ApiError (List (Rating × UserView) × (Rat × Nat)) :=
  match authRole db sess ["store_owner"] with
  | .error e => .error e
  | .ok u =>
    match getStoreById db storeId with
    | none => .error (.forbidden "Access denied")
    | some st =>
      if st.ownerId = some u.id then
        .ok (getRatingsByStore db storeId, getStoreStats db storeId)
      else .error (.forbidden "Access denied")

/-! ### General list lemmas -/

/-- Mapping a function that does not change whether `p` holds commutes with
filtering by `p`. -/
theorem filter_map_comm (f : α → α) (p : α → Bool)
    (hp : ∀ x, p (f x) = p x) :
    ∀ l : List α, (l.map f).filter p = (l.filter p).map f := by
  intro l
  induction l with
  | nil => rfl
  | cons a t ih =>
    cases h : p a with
    | false => simp [List.filter_cons, hp, h, ih]
    | true => simp [List.filter_cons, hp, h, ih]

/-- Mapping a function that does not change whether `p` holds commutes with
`find?`. -/
theorem find?_map_pres (f : α → α) (p : α → Bool)
    (hp : ∀ x, p (f x) = p x) :
    ∀ l : List α, (l.map f).find? p = (l.find? p).map f := by
  intro l
  induction l with
  | nil => rfl
  | cons a t ih =>
    cases h : p a with
    | false =>
      have h1 : ¬ p (f a) = true := by simp [hp, h]
      have h2 : ¬ p a = true := by simp [h]
      rw [List.map_cons, List.find?_cons_of_neg _ h1,
        List.find?_cons_of_neg _ h2, ih]
    | true =>
      have h1 : p (f a) = true := by simp [hp, h]
      rw [List.map_cons, List.find?_cons_of_pos _ h1,
        List.find?_cons_of_pos _ h, Option.map_some']

/-- A failing `find?` means the filter is empty. -/
theorem filter_eq_nil_of_find?_eq_none {p : α → Bool} {l : List α}
    (h : l.find? p = none) : l.filter p = [] := by
  rw [List.find?_eq_none] at h
  rw [List.filter_eq_nil_iff]
  exact h

/-- A list of length at most one containing `a` is exactly `[a]`. -/
theorem eq_singleton_of_length_le_one_of_mem {a : α} :
    ∀ {l : List α}, l.length ≤ 1 → a ∈ l → l = [a] := by
  intro l
  match l with
  | [] => intro _ hm; cases hm
  | [x] =>
    intro _ hm
    rcases List.mem_singleton.mp hm with rfl
    rfl
  | x :: y :: t => intro hlen; simp at hlen

/-- With at most one `p`-element, a member satisfying `p` is the whole
filter. -/
theorem filter_eq_singleton_of_mem {p : α → Bool} {l : List α} {a : α}
    (ha : a ∈ l) (hpa : p a = true) (hlen : (l.filter p).length ≤ 1) :
    l.filter p = [a] :=
  eq_singleton_of_length_le_one_of_mem hlen (List.mem_filter.mpr ⟨ha, hpa⟩)

/-- When the filter is the singleton `[a]`, `find?` returns `a`. -/
theorem find?_eq_some_of_filter_eq_singleton {p : α → Bool} {a : α} :
    ∀ {l : List α}, l.filter p = [a] → l.find? p = some a := by
  intro l
  induction l with
  | nil => intro h; simp at h
  | cons x t ih =>
    intro h
    cases hx : p x with
    | false =>
      have h' : t.filter p = [a] := by simpa [List.filter_cons, hx] using h
      rw [List.find?_cons_of_neg _ (by simp [hx]), ih h']
    | true =>
      have h' : x :: t.filter p = [a] := by simpa [List.filter_cons, hx] using h
      have hxa : x = a := (List.cons.injEq _ _ _ _ ▸ h').1
      rw [List.find?_cons_of_pos _ hx, hxa]

/-- Appending past a list with no `p`-element does not change `find?`. -/
theorem find?_append_of_none {p : α → Bool} {l₁ : List α} (l₂ : List α)
    (h : l₁.find? p = none) : (l₁ ++ l₂).find? p = l₂.find? p := by
  induction l₁ with
  | nil => rfl
  | cons x t ih =>
    cases hx : p x with
    | false =>
      rw [List.find?_cons_of_neg _ (by simp [hx])] at h
      rw [List.cons_append, List.find?_cons_of_neg _ (by simp [hx]), ih h]
    | true => rw [List.find?_cons_of_pos _ hx] at h; cases h

/-! ### The uniqueness invariant and its preservation -/

/-- Number of rating rows currently stored for a (userId, storeId) key. -/
def countForKey (db : DB) (u : String) (s : Nat) : Nat :=
  (db.ratings.filter (keyMatch u s)).length

/-- Central consistency invariant of the schema: the
`unique(userId, storeId)` constraint, i.e. at most one rating row per
(userId, storeId) pair. -/
def ratingKeyUnique (db : DB) : Prop :=
  ∀ u s, countForKey db u s ≤ 1

/-- Row transformation applied by the `onConflictDoUpdate` clause of
`createOrUpdateRating` (after the int4 conversion succeeded). -/
def conflictUpdate (d : InsertRating) (now : Nat) (r : Rating) : Rating :=
  if keyMatch d.userId d.storeId r then
    { r with value := d.value.num, updatedAt := now }
  else r

theorem conflictUpdate_userId (d : InsertRating) (now : Nat) (r : Rating) :
    (conflictUpdate d now r).userId = r.userId := by
  unfold conflictUpdate; split <;> rfl

theorem conflictUpdate_storeId (d : InsertRating) (now : Nat) (r : Rating) :
    (conflictUpdate d now r).storeId = r.storeId := by
  unfold conflictUpdate; split <;> rfl

theorem keyMatch_conflictUpdate (u : String) (s : Nat) (d : InsertRating)
    (now : Nat) (r : Rating) :
    keyMatch u s (conflictUpdate d now r) = keyMatch u s r := by
  simp [keyMatch, conflictUpdate_userId, conflictUpdate_storeId]

/-- Unfolding of `createOrUpdateRating` when the bound number is not an
integer: the int4 parameter conversion rejects the statement outright. -/
theorem createOrUpdateRating_intFail (db : DB) (now : Nat) (d : InsertRating)
    (hden : d.value.den ≠ 1) :
    createOrUpdateRating db now d = .error .intConversion := by
  unfold createOrUpdateRating
  rw [if_neg hden]

/-- Unfolding of `createOrUpdateRating` in the conflict branch: the unique
key already has a row, so the upsert updates `value` and `updatedAt` of
the conflicting row, preserving `id` and `createdAt`, and returns it. -/
theorem createOrUpdateRating_conflict (db : DB) (now : Nat) (d : InsertRating)
    (old : Rating) (hden : d.value.den = 1)
    (hf : db.ratings.find? (keyMatch d.userId d.storeId) = some old) :
    createOrUpdateRating db now d =
      .ok ({ db with ratings := db.ratings.map (conflictUpdate d now) },
           { old with value := d.value.num, updatedAt := now }) := by
  unfold createOrUpdateRating
  rw [if_pos hden, hf]
  rfl

/-- Unfolding of `createOrUpdateRating` in the insert branch: no row for
the key, both foreign keys satisfied, so a fresh row is appended. -/
theorem createOrUpdateRating_insert (db : DB) (now : Nat) (d : InsertRating)
    (hden : d.value.den = 1)
    (hf : db.ratings.find? (keyMatch d.userId d.storeId) = none)
    (hu : db.users.any (fun u => u.id = d.userId) = true)
    (hs : db.stores.any (fun s => s.id = d.storeId) = true) :
    createOrUpdateRating db now d =
      .ok ({ db with
             ratings := db.ratings ++
               [{ id := db.nextRatingId, userId := d.userId,
                  storeId := d.storeId, value := d.value.num,
                  createdAt := now, updatedAt := now }],
             nextRatingId := db.nextRatingId + 1 },
           { id := db.nextRatingId, userId := d.userId, storeId := d.storeId,
             value := d.value.num, createdAt := now, updatedAt := now }) := by
  unfold createOrUpdateRating
  rw [if_pos hden, hf]
  simp [hu, hs]

/-- Unfolding of `createOrUpdateRating` when a foreign key is violated:
PostgreSQL rejects the insert. -/
theorem createOrUpdateRating_fkFail (db : DB) (now : Nat) (d : InsertRating)
    (hden : d.value.den = 1)
    (hf : db.ratings.find? (keyMatch d.userId d.storeId) = none)
    (hfk : (db.users.any (fun u => u.id = d.userId) &&
            db.stores.any (fun s => s.id = d.storeId)) = false) :
    createOrUpdateRating db now d = .error .fkViolation := by
  unfold createOrUpdateRating
  rw [if_pos hden, hf]
  simp [hfk]

/-- The conflict-branch update leaves every key count unchanged. -/
theorem countForKey_conflictUpdate (db : DB) (d : InsertRating) (now : Nat)
    (u : String) (s : Nat) :
    countForKey { db with ratings := db.ratings.map (conflictUpdate d now) }
        u s = countForKey db u s := by
  unfold countForKey
  show ((db.ratings.map (conflictUpdate d now)).filter (keyMatch u s)).length
    = (db.ratings.filter (keyMatch u s)).length
  rw [filter_map_comm _ _ (fun x => keyMatch_conflictUpdate u s d now x),
    List.length_map]

/-- A successful upsert preserves the uniqueness invariant. -/
theorem createOrUpdateRating_preserves_unique {db : DB} {now : Nat}
    {d : InsertRating} {db' : DB} {r : Rating} (hinv : ratingKeyUnique db)
    (h : createOrUpdateRating db now d = .ok (db', r)) :
    ratingKeyUnique db' := by
  intro u s
  by_cases hden : d.value.den = 1
  case neg =>
    rw [createOrUpdateRating_intFail db now d hden] at h
    cases h
  case pos =>
  cases hf : db.ratings.find? (keyMatch d.userId d.storeId) with
  | some old =>
    rw [createOrUpdateRating_conflict db now d old hden hf] at h
    simp only [Except.ok.injEq, Prod.mk.injEq] at h
    obtain ⟨h1, _⟩ := h
    rw [← h1, countForKey_conflictUpdate]
    exact hinv u s
  | none =>
    cases hfk : (db.users.any (fun u => u.id = d.userId) &&
        db.stores.any (fun s => s.id = d.storeId)) with
    | false =>
      rw [createOrUpdateRating_fkFail db now d hden hf hfk] at h
      cases h
    | true =>
      rw [Bool.and_eq_true] at hfk
      obtain ⟨hu, hs⟩ := hfk
      rw [createOrUpdateRating_insert db now d hden hf hu hs] at h
      simp only [Except.ok.injEq, Prod.mk.injEq] at h
      obtain ⟨h1, _⟩ := h
      rw [← h1]
      unfold countForKey
      show ((db.ratings ++
        [({ id := db.nextRatingId, userId := d.userId, storeId := d.storeId,
            value := d.value.num, createdAt := now, updatedAt := now } : Rating)]).filter
             (keyMatch u s)).length ≤ 1
      rw [List.filter_append]
      cases hk : keyMatch u s
          ({ id := db.nextRatingId, userId := d.userId, storeId := d.storeId,
             value := d.value.num, createdAt := now, updatedAt := now } : Rating) with
      | false =>
        have := hinv u s
        unfold countForKey at this
        simpa [List.filter_cons, hk] using this
      | true =>
        have hks : d.userId = u ∧ d.storeId = s := by
          simpa [keyMatch] using hk
        obtain ⟨rfl, rfl⟩ := hks
        have hnil : db.ratings.filter (keyMatch d.userId d.storeId) = [] :=
          filter_eq_nil_of_find?_eq_none hf
        simp [hnil, List.filter_cons, hk]

/-- One rating submission applied to the database state, the state being
unchanged when the call fails.  An interleaving of concurrent submissions
against the linearizable per-key upsert is an arbitrary finite list of
such atomic steps. -/
def submitStep (db : DB) (c : Nat × InsertRating) : DB :=
  match createOrUpdateRating db c.1 c.2 with
  | .ok p => p.1
  | .error _ => db

/-- Database resulting from a finite sequence of atomic rating
submissions. -/
def applySubmits (db : DB) (cs : List (Nat × InsertRating)) : DB :=
  cs.foldl submitStep db

/-- Any sequence of atomic upserts preserves the uniqueness invariant. -/
theorem applySubmits_preserves_unique (cs : List (Nat × InsertRating)) :
    ∀ db : DB, ratingKeyUnique db → ratingKeyUnique (applySubmits db cs) := by
  induction cs with
  | nil => intro db h; exact h
  | cons c t ih =>
    intro db h
    show ratingKeyUnique ((c :: t).foldl submitStep db)
    rw [List.foldl_cons]
    apply ih
    unfold submitStep
    cases hc : createOrUpdateRating db c.1 c.2 with
    | ok p => exact createOrUpdateRating_preserves_unique h hc
    | error e => exact h

/-- Characterization of a successful upsert: the resulting table holds
exactly one row for the submitted key, carrying the submitted value and
`updatedAt = now`. -/
theorem createOrUpdateRating_ok_filter (db : DB) (now : Nat)
    (d : InsertRating) (hden : d.value.den = 1) (hinv : ratingKeyUnique db)
    (hu : db.users.any (fun u => u.id = d.userId) = true)
    (hs : db.stores.any (fun s => s.id = d.storeId) = true) :
    ∃ db' r, createOrUpdateRating db now d = .ok (db', r) ∧
      db'.ratings.filter (keyMatch d.userId d.storeId) = [r] ∧
      r.value = d.value.num ∧ r.updatedAt = now := by
  cases hf : db.ratings.find? (keyMatch d.userId d.storeId) with
  | some old =>
    refine ⟨_, _, createOrUpdateRating_conflict db now d old hden hf, ?_,
      rfl, rfl⟩
    have hmem : old ∈ db.ratings := List.mem_of_find?_eq_some hf
    have hpold : keyMatch d.userId d.storeId old = true := List.find?_some hf
    have hfil : db.ratings.filter (keyMatch d.userId d.storeId) = [old] :=
      filter_eq_singleton_of_mem hmem hpold (hinv d.userId d.storeId)
    show (db.ratings.map (conflictUpdate d now)).filter
        (keyMatch d.userId d.storeId) = _
    rw [filter_map_comm _ _
      (fun x => keyMatch_conflictUpdate d.userId d.storeId d now x), hfil]
    simp [conflictUpdate, hpold]
  | none =>
    refine ⟨_, _, createOrUpdateRating_insert db now d hden hf hu hs, ?_,
      rfl, rfl⟩
    show (db.ratings ++
      [({ id := db.nextRatingId, userId := d.userId, storeId := d.storeId,
          value := d.value.num, createdAt := now, updatedAt := now } : Rating)]).filter
        (keyMatch d.userId d.storeId) = _
    rw [List.filter_append, filter_eq_nil_of_find?_eq_none hf]
    have hk : keyMatch d.userId d.storeId
        ({ id := db.nextRatingId, userId := d.userId, storeId := d.storeId,
           value := d.value.num, createdAt := now, updatedAt := now } : Rating)
          = true := by
      simp [keyMatch]
    simp [List.filter_cons, hk]

/-- Total-ratings component of `getStoreStats`. -/
theorem getStoreStats_count (db : DB) (sid : Nat) :
    (getStoreStats db sid).2 =
      (db.ratings.filter (fun r => r.storeId = sid)).length := rfl

/-! ### Sample data for the concrete witness instances -/

/-- Sample user row builder. -/
def mkUser (id : String) (role : String) : User :=
  { id := id, email := some (id ++ "@example.com"), firstName := none,
    lastName := none, profileImageUrl := none,
    name := some "Sample Platform User Name", address := some "1 Main Street",
    password := some "storedhash", role := role, createdAt := 0,
    updatedAt := 0 }

/-- Sample store row builder. -/
def mkStore (id : Nat) (ownerId : Option String) : Store :=
  { id := id, name := "Sample Store", email := "store@example.com",
    address := "2 Side Street", ownerId := ownerId, createdAt := 0,
    updatedAt := 0 }

/-! ### Claim C1 -/

/-- C1: for every database state satisfying the uniqueness invariant — in
particular every reachable state, the invariant holding initially and
being preserved by every operation — any finite interleaving of N
(concurrent) `submitRating` upserts leaves at most one persisted rating
row per (userId, storeId) key. -/
theorem submitRating_at_most_one_row_per_key (db : DB)
    (cs : List (Nat × InsertRating)) (hinv : ratingKeyUnique db) :
    ∀ u s, countForKey (applySubmits db cs) u s ≤ 1 :=
  applySubmits_preserves_unique cs db hinv

/-- Database used to instantiate C1: one rater, one store, no ratings. -/
def dbC1 : DB :=
  { users := [mkUser "u1" "normal"], stores := [mkStore 1 none],
    ratings := [], nextRatingId := 1 }

/-- Three concurrent submissions for the same key, as one interleaving. -/
def subsC1 : List (Nat × InsertRating) :=
  [(1, ⟨"u1", 1, 4⟩), (2, ⟨"u1", 1, 5⟩), (3, ⟨"u1", 1, 3⟩)]

/-- Witness for C1 at a concrete database and submission interleaving. -/
theorem submitRating_at_most_one_row_per_key_witness :
    ratingKeyUnique dbC1 ∧ countForKey (applySubmits dbC1 subsC1) "u1" 1 ≤ 1 :=
  have hinv : ratingKeyUnique dbC1 := fun u s => by simp [countForKey, dbC1]
  ⟨hinv, submitRating_at_most_one_row_per_key dbC1 subsC1 hinv "u1" 1⟩

/-! ### Claim C2 -/

/-- C2: `submitRating(u, s, v1)` followed by `submitRating(u, s, v2)` for
valid integer values v1, v2 leaves exactly one rating row for the key
(u, s); that row has value v2, the id and createdAt of the first call's
row, and updatedAt equal to the second call's time; the store's
totalRatings is unchanged by the second call. -/
theorem submitRating_twice_overwrites (db : DB) (t1 t2 : Nat) (uid : String)
    (sid : Nat) (v1 v2 : Int) (hinv : ratingKeyUnique db)
    (hu : db.users.any (fun u => u.id = uid) = true)
    (hs : db.stores.any (fun s => s.id = sid) = true) :
    ∃ db1 r1 db2 r2,
      createOrUpdateRating db t1 ⟨uid, sid, (v1 : Rat)⟩ = .ok (db1, r1) ∧
      createOrUpdateRating db1 t2 ⟨uid, sid, (v2 : Rat)⟩ = .ok (db2, r2) ∧
      db2.ratings.filter (keyMatch uid sid) = [r2] ∧
      r2.value = v2 ∧ r2.id = r1.id ∧ r2.createdAt = r1.createdAt ∧
      r2.updatedAt = t2 ∧
      (getStoreStats db2 sid).2 = (getStoreStats db1 sid).2 := by
  obtain ⟨db1, r1, h1, hfil1, hval1, hupd1⟩ :=
    createOrUpdateRating_ok_filter db t1 ⟨uid, sid, (v1 : Rat)⟩
      (Rat.den_intCast v1) hinv hu hs
  have hf1 : db1.ratings.find? (keyMatch uid sid) = some r1 :=
    find?_eq_some_of_filter_eq_singleton hfil1
  have hkey1 : keyMatch uid sid r1 = true := List.find?_some hf1
  have h2 := createOrUpdateRating_conflict db1 t2 ⟨uid, sid, (v2 : Rat)⟩ r1
    (Rat.den_intCast v2) hf1
  refine ⟨db1, r1, _, _, h1, h2, ?_, Rat.num_intCast v2, rfl, rfl, rfl, ?_⟩
  · show (db1.ratings.map (conflictUpdate ⟨uid, sid, (v2 : Rat)⟩ t2)).filter
        (keyMatch uid sid) = _
    rw [filter_map_comm _ _
      (fun x => keyMatch_conflictUpdate uid sid ⟨uid, sid, (v2 : Rat)⟩ t2 x),
      hfil1]
    simp [conflictUpdate, hkey1]
  · rw [getStoreStats_count, getStoreStats_count]
    show ((db1.ratings.map (conflictUpdate ⟨uid, sid, (v2 : Rat)⟩ t2)).filter
        (fun r => r.storeId = sid)).length = _
    rw [filter_map_comm _ _
      (fun x => by simp [conflictUpdate_storeId]), List.length_map]

/-- Database used to instantiate C2. -/
def dbC2 : DB :=
  { users := [mkUser "u2" "normal"], stores := [mkStore 2 none],
    ratings := [], nextRatingId := 1 }

/-- Witness for C2 at a concrete database. -/
theorem submitRating_twice_overwrites_witness :
    ratingKeyUnique dbC2 ∧
      (dbC2.users.any (fun u => u.id = "u2") = true) ∧
      (dbC2.stores.any (fun s => s.id = 2) = true) ∧
      (∃ db1 r1 db2 r2,
        createOrUpdateRating dbC2 10 ⟨"u2", 2, ((4 : Int) : Rat)⟩ =
          .ok (db1, r1) ∧
        createOrUpdateRating db1 20 ⟨"u2", 2, ((5 : Int) : Rat)⟩ =
          .ok (db2, r2) ∧
        db2.ratings.filter (keyMatch "u2" 2) = [r2] ∧
        r2.value = (5 : Int) ∧ r2.id = r1.id ∧ r2.createdAt = r1.createdAt ∧
        r2.updatedAt = 20 ∧
        (getStoreStats db2 2).2 = (getStoreStats db1 2).2) :=
  have hinv : ratingKeyUnique dbC2 := fun u s => by simp [countForKey, dbC2]
  have hu : dbC2.users.any (fun u => u.id = "u2") = true := by
    simp [dbC2, mkUser]
  have hs : dbC2.stores.any (fun s => s.id = 2) = true := by
    simp [dbC2, mkStore]
  ⟨hinv, hu, hs, submitRating_twice_overwrites dbC2 10 20 "u2" 2 4 5 hinv hu hs⟩

/-! ### Auth-pipeline helper lemmas -/

/-- A failing `find?` follows from an empty filter. -/
theorem find?_eq_none_of_filter_eq_nil {p : α → Bool} {l : List α}
    (h : l.filter p = []) : l.find? p = none := by
  rw [List.find?_eq_none]
  exact List.filter_eq_nil_iff.mp h

/-- Successful authentication means the session existed and `getUser`
found the current user row. -/
theorem requireAuth_ok_getUser {db : DB} {sess : Option SessionData}
    {u : User} (h : requireAuth db sess = .ok u) :
    ∃ s, sess = some s ∧ getUser db s.userId = some u := by
  cases sess with
  | none => simp [requireAuth] at h
  | some s =>
    refine ⟨s, rfl, ?_⟩
    unfold requireAuth at h
    by_cases hid : s.userId = ""
    · simp [hid] at h
    · simp only [hid, if_false] at h
      cases hg : getUser db s.userId with
      | none => rw [hg] at h; cases h
      | some v => rw [hg] at h; cases h; rfl

/-- A user returned by `getUser` is a member of the table with the looked
up id. -/
theorem getUser_mem {db : DB} {id : String} {u : User}
    (h : getUser db id = some u) : u ∈ db.users ∧ u.id = id := by
  unfold getUser at h
  exact ⟨List.mem_of_find?_eq_some h, by simpa using List.find?_some h⟩

/-- The `requireAuth` / `requireRole` chain succeeds for an authenticated
user whose current role is in the allowed list. -/
theorem authRole_ok_of {db : DB} {sess : Option SessionData} {u : User}
    (roles : List String) (hauth : requireAuth db sess = .ok u)
    (hrole : roles.contains u.role = true) :
    authRole db sess roles = .ok u := by
  have hm : u.role ∈ roles := by simpa using hrole
  unfold authRole requireRole
  rw [hauth]
  simp [hm]

/-- The `requireAuth` / `requireRole` chain fails with the role-failure
response when the current role is not allowed. -/
theorem authRole_forbidden_of {db : DB} {sess : Option SessionData} {u : User}
    (roles : List String) (hauth : requireAuth db sess = .ok u)
    (hrole : roles.contains u.role = false) :
    authRole db sess roles =
      .error (.forbidden "Insufficient permissions") := by
  have hm : u.role ∉ roles := by simpa using hrole
  unfold authRole requireRole
  rw [hauth]
  simp [hm]

/-! ### Claim C3 -/

/-- C3 (amended): for an authenticated user of role "normal",
`POST /api/ratings` rejects a value outside [1, 5] with a 400 validation
error; the schema checks no integrality, so a non-integral rational in
[1, 5] passes validation but then fails the int4 parameter conversion at
the database, which the handler's catch surfaces as 500 InternalError —
not a ValidationError; a `storeId` referencing no existing store fails
the insert's foreign-key check, likewise surfaced as 500 InternalError
rather than 404 NotFound; an integral in-range value at an existing store
performs the upsert, storing that integer. -/
theorem postRatings_validation_and_missing_store (db : DB) (now : Nat)
    (sess : Option SessionData) (body : RatingBody) (u : User)
    (hauth : requireAuth db sess = .ok u) (hrole : u.role = "normal") :
    (ratingValueOk body.rating = false →
      postRatings db now sess body =
        (.error (.badRequest "Validation error"), db)) ∧
    (ratingValueOk body.rating = true → body.rating.den ≠ 1 →
      postRatings db now sess body = (.error .internalError, db) ∧
        ApiError.internalError ≠ .badRequest "Validation error") ∧
    (ratingValueOk body.rating = true → body.rating.den = 1 →
      countForKey db u.id body.storeId = 0 →
      db.stores.any (fun s => s.id = body.storeId) = false →
      postRatings db now sess body = (.error .internalError, db) ∧
        ApiError.internalError.status = 500) ∧
    (ratingValueOk body.rating = true → body.rating.den = 1 →
      db.stores.any (fun s => s.id = body.storeId) = true →
      ∃ db' r, postRatings db now sess body = (.ok r, db') ∧
        r.value = body.rating.num) := by
  have hA : authRole db sess ["normal"] = .ok u :=
    authRole_ok_of ["normal"] hauth (by rw [hrole]; rfl)
  refine ⟨?_, ?_, ?_, ?_⟩
  · intro hval
    simp [postRatings, hA, hval]
  · intro hval hden
    refine ⟨?_, by decide⟩
    simp [postRatings, hA, hval,
      createOrUpdateRating_intFail db now ⟨u.id, body.storeId, body.rating⟩
        hden]
  · intro hval hden hcount hs
    have hfil : db.ratings.filter (keyMatch u.id body.storeId) = [] :=
      List.eq_nil_of_length_eq_zero hcount
    have hf : db.ratings.find? (keyMatch u.id body.storeId) = none :=
      find?_eq_none_of_filter_eq_nil hfil
    have hfk : (db.users.any (fun x => x.id = u.id) &&
        db.stores.any (fun s => s.id = body.storeId)) = false := by
      rw [hs, Bool.and_false]
    refine ⟨?_, rfl⟩
    simp [postRatings, hA, hval,
      createOrUpdateRating_fkFail db now ⟨u.id, body.storeId, body.rating⟩
        hden hf hfk]
  · intro hval hden hs
    cases hf : db.ratings.find? (keyMatch u.id body.storeId) with
    | some old =>
      have hres : postRatings db now sess body =
          (.ok { old with value := body.rating.num, updatedAt := now },
           { db with ratings := List.map (conflictUpdate ⟨u.id, body.storeId, body.rating⟩ now) db.ratings }) := by
        simp [postRatings, hA, hval,
          createOrUpdateRating_conflict db now
            ⟨u.id, body.storeId, body.rating⟩ old hden hf]
      exact ⟨_, _, hres, rfl⟩
    | none =>
      obtain ⟨s, hse, hg⟩ := requireAuth_ok_getUser hauth
      obtain ⟨hmem, _⟩ := getUser_mem hg
      have hu' : db.users.any (fun x => x.id = u.id) = true :=
        List.any_eq_true.mpr ⟨u, hmem, by simp⟩
      have hres : postRatings db now sess body =
          (.ok ({ id := db.nextRatingId, userId := u.id,
                  storeId := body.storeId, value := body.rating.num,
                  createdAt := now, updatedAt := now } : Rating),
           { db with ratings := List.append db.ratings [({ id := db.nextRatingId, userId := u.id, storeId := body.storeId, value := body.rating.num, createdAt := now, updatedAt := now } : Rating)], nextRatingId := db.nextRatingId + 1 }) := by
        simp [postRatings, hA, hval,
          createOrUpdateRating_insert db now
            ⟨u.id, body.storeId, body.rating⟩ hden hf hu' hs]
      exact ⟨_, _, hres, rfl⟩

/-- Database used for the C3 instances: a rater and one store with id 3;
store id 99 does not exist. -/
def dbC3 : DB :=
  { users := [mkUser "u3" "normal"], stores := [mkStore 3 none],
    ratings := [], nextRatingId := 1 }

/-- The non-integral rational 5/2 (numerator 5, denominator 2), a
JavaScript number the rating schema accepts. -/
def q52 : Rat := ⟨5, 2, by norm_num, by norm_num⟩

/-- Counterexample to C3 as stated: the non-integer 5/2 passes the
`z.number().min(1).max(5)` validation and the route answers it with 500
InternalError (the int4 conversion failure), not a ValidationError; and a
rating for a nonexistent store is likewise answered with 500
InternalError, not 404 NotFound. -/
theorem postRatings_claim3_cex :
    q52 = 5 / 2 ∧ ratingValueOk q52 = true ∧ q52.den ≠ 1 ∧
    postRatings dbC3 0 (some ⟨"u3", "normal"⟩) ⟨3, q52⟩ =
      (.error .internalError, dbC3) ∧
    ApiError.internalError ≠ .badRequest "Validation error" ∧
    postRatings dbC3 0 (some ⟨"u3", "normal"⟩) ⟨99, 3⟩ =
      (.error .internalError, dbC3) ∧
    ApiError.internalError.status = 500 ∧
    ApiError.internalError.status ≠ 404 :=
  ⟨by rw [← @Rat.num_div_den q52]
      norm_num [q52],
   by decide, by decide, by rfl, by decide, by rfl, rfl, by decide⟩

/-- Witness for the amended C3, exercising all four branches at concrete
inputs: out-of-range value, in-range non-integral value, missing store,
and a successful upsert. -/
theorem postRatings_validation_and_missing_store_witness :
    requireAuth dbC3 (some ⟨"u3", "normal"⟩) = .ok (mkUser "u3" "normal") ∧
    postRatings dbC3 0 (some ⟨"u3", "normal"⟩) ⟨3, 7⟩ =
      (.error (.badRequest "Validation error"), dbC3) ∧
    postRatings dbC3 0 (some ⟨"u3", "normal"⟩) ⟨3, q52⟩ =
      (.error .internalError, dbC3) ∧
    postRatings dbC3 0 (some ⟨"u3", "normal"⟩) ⟨99, 3⟩ =
      (.error .internalError, dbC3) ∧
    (∃ db' r, postRatings dbC3 0 (some ⟨"u3", "normal"⟩) ⟨3, 4⟩ =
      (.ok r, db') ∧ r.value = (4 : Rat).num) := by
  have hauth : requireAuth dbC3 (some ⟨"u3", "normal"⟩) =
      .ok (mkUser "u3" "normal") := by rfl
  have h7 := postRatings_validation_and_missing_store dbC3 0
    (some ⟨"u3", "normal"⟩) ⟨3, 7⟩ (mkUser "u3" "normal") hauth rfl
  have hq := postRatings_validation_and_missing_store dbC3 0
    (some ⟨"u3", "normal"⟩) ⟨3, q52⟩ (mkUser "u3" "normal") hauth rfl
  have h99 := postRatings_validation_and_missing_store dbC3 0
    (some ⟨"u3", "normal"⟩) ⟨99, 3⟩ (mkUser "u3" "normal") hauth rfl
  have h4 := postRatings_validation_and_missing_store dbC3 0
    (some ⟨"u3", "normal"⟩) ⟨3, 4⟩ (mkUser "u3" "normal") hauth rfl
  exact ⟨hauth, h7.1 (by decide), (hq.2.1 (by decide) (by decide)).1,
    (h99.2.2.1 (by decide) (by decide) (by decide) (by decide)).1,
    h4.2.2.2 (by decide) (by decide) (by decide)⟩

/-! ### Claim C4 -/

/-- Database used for the C4 instances: store 4 has one rating, store 7
has none. -/
def dbC4 : DB :=
  { users := [mkUser "u4" "normal", mkUser "a4" "admin"],
    stores := [mkStore 4 none, mkStore 7 none],
    ratings := [{ id := 1, userId := "u4", storeId := 4, value := 5,
                  createdAt := 1, updatedAt := 1 }],
    nextRatingId := 2 }

/-- Counterexample to C4 as stated: store 4 has a rating, and deleting it
does not succeed — the un-cascaded foreign key rejects the delete and the
admin route surfaces 500. -/
theorem deleteStore_cascade_cex :
    dbC4.ratings.any (fun r => r.storeId = 4) = true ∧
    deleteStore dbC4 4 = .error .fkViolation ∧
    deleteStoreRoute dbC4 (some ⟨"a4", "admin"⟩) 4 =
      (.error .internalError, dbC4) :=
  ⟨by decide, by rfl, by rfl⟩

/-- C4 (amended): store deletion does not cascade.  Deleting a store that
still has ratings is rejected by the `ratings.storeId` foreign key (the
route surfaces 500); only a store with zero ratings can be deleted, and
afterwards `getRatingsByStore` for it is empty and no rating row
references it. -/
theorem deleteStore_restricted (db : DB) (sid : Nat) :
    (db.ratings.any (fun r => r.storeId = sid) = true →
      deleteStore db sid = .error .fkViolation) ∧
    (db.ratings.any (fun r => r.storeId = sid) = false →
      ∃ db', deleteStore db sid = .ok db' ∧
        getRatingsByStore db' sid = [] ∧
        db'.ratings.all (fun r => !(r.storeId = sid : Bool)) = true) := by
  constructor
  · intro hany
    simp [deleteStore, hany]
  · intro hany
    have hfil : db.ratings.filter (fun r => r.storeId = sid) = [] := by
      rw [List.filter_eq_nil_iff]
      intro a ha
      have := List.any_eq_false.mp hany a ha
      simpa using this
    refine ⟨{ db with
      stores := db.stores.filter (fun s => !(s.id = sid : Bool)) }, ?_, ?_, ?_⟩
    · simp [deleteStore, hany]
    · simp [getRatingsByStore, hfil, sortDescBy]
    · rw [List.all_eq_true]
      intro a ha
      have := List.any_eq_false.mp hany a ha
      simpa using this

/-- Witness for the amended C4 at concrete inputs: deleting the rated
store 4 fails, deleting the unrated store 7 succeeds and leaves no rating
referencing it. -/
theorem deleteStore_restricted_witness :
    (dbC4.ratings.any (fun r => r.storeId = 4) = true ∧
      deleteStore dbC4 4 = .error .fkViolation) ∧
    (dbC4.ratings.any (fun r => r.storeId = 7) = false ∧
      ∃ db', deleteStore dbC4 7 = .ok db' ∧
        getRatingsByStore db' 7 = [] ∧
        db'.ratings.all (fun r => !(r.storeId = 7 : Bool)) = true) :=
  ⟨⟨by decide, (deleteStore_restricted dbC4 4).1 (by decide)⟩,
   ⟨by decide, (deleteStore_restricted dbC4 7).2 (by decide)⟩⟩

/-! ### Claim C5 -/

/-- Modelled from the spec: the arithmetic mean of a list of rating
values, 0 on the empty list. -/
def specMean (vals : List Rat) : Rat :=
  if vals.length = 0 then 0 else vals.sum / (vals.length : Rat)

/-- Values of the current rating rows of a store, as the rationals SQL
`AVG` averages. -/
def storeRatingValues (db : DB) (sid : Nat) : List Rat :=
  (db.ratings.filter (fun r => r.storeId = sid)).map (fun r => (r.value : Rat))

/-- C5: `getStoreStats` returns the count of the store's current rating
rows together with their arithmetic mean, and exactly (0, 0) when the
store has zero ratings — the result is a total pair of numbers, never
NULL. -/
theorem getStoreStats_is_arithmetic_mean (db : DB) (sid : Nat) :
    getStoreStats db sid =
      (specMean (storeRatingValues db sid), (storeRatingValues db sid).length) ∧
    (storeRatingValues db sid = [] → getStoreStats db sid = (0, 0)) := by
  constructor
  · by_cases h : (db.ratings.filter (fun r => r.storeId = sid)).length = 0
    · simp [getStoreStats, specMean, storeRatingValues, h, List.length_map]
    · simp [getStoreStats, specMean, storeRatingValues, h, List.length_map]
  · intro h
    have hfil : db.ratings.filter (fun r => r.storeId = sid) = [] :=
      List.map_eq_nil_iff.mp h
    simp [getStoreStats, hfil]

/-- Database used for the C5 witness: store 5 carries ratings 4, 5, 3. -/
def dbC5 : DB :=
  { users := [mkUser "u5" "normal", mkUser "u6" "normal", mkUser "u7" "normal"],
    stores := [mkStore 5 none],
    ratings :=
      [{ id := 1, userId := "u5", storeId := 5, value := 4, createdAt := 3,
         updatedAt := 3 },
       { id := 2, userId := "u6", storeId := 5, value := 5, createdAt := 2,
         updatedAt := 2 },
       { id := 3, userId := "u7", storeId := 5, value := 3, createdAt := 1,
         updatedAt := 1 }],
    nextRatingId := 4 }

/-- Witness for C5: ratings [4, 5, 3] yield exactly (4.0, 3), and a store
with zero ratings yields exactly (0.0, 0). -/
theorem getStoreStats_is_arithmetic_mean_witness :
    getStoreStats dbC5 5 =
      (specMean (storeRatingValues dbC5 5), (storeRatingValues dbC5 5).length) ∧
    getStoreStats dbC5 5 = (4, 3) ∧
    getStoreStats dbC5 9 = (0, 0) :=
  ⟨(getStoreStats_is_arithmetic_mean dbC5 5).1,
   by norm_num [getStoreStats, dbC5, List.filter],
   (getStoreStats_is_arithmetic_mean dbC5 9).2 (by decide)⟩

/-! ### Claim C6 -/

/-- Database used for the C6 instances: one user of role "normal". -/
def dbC6 : DB :=
  { users := [mkUser "u6c" "normal"], stores := [], ratings := [],
    nextRatingId := 1 }

/-- Counterexample to C6 as stated: a session issued with role snapshot
"normal" is not authorized for the admin-only stats route; after an admin
changes the user's role to "admin", the very same session is authorized —
the snapshot taken at session creation does not govern later requests. -/
theorem role_snapshot_cex :
    (⟨"u6c", "normal"⟩ : SessionData).userRole = "normal" ∧
    adminStats dbC6 (some ⟨"u6c", "normal"⟩) =
      .error (.forbidden "Insufficient permissions") ∧
    adminStats (updateUserRole dbC6 5 "u6c" "admin")
      (some ⟨"u6c", "normal"⟩) = .ok (1, 0, 0) :=
  ⟨rfl, by rfl, by rfl⟩

/-- C6 (amended): the login and registration handlers store a role
snapshot in the session, but authorization never consults it:
`requireAuth` reloads the user's current role from the database on every
request, so the auth chain's outcome is invariant under the snapshot and,
after `updateUserRole`, authorizes according to the new role at once. -/
theorem authorization_ignores_role_snapshot (db : DB) (now : Nat)
    (s : SessionData) (snap : String) (roles : List String) :
    (authRole db (some { s with userRole := snap }) roles =
      authRole db (some s) roles) ∧
    (∀ u : User, getUser db s.userId = some u → s.userId ≠ "" →
      ∀ newRole : String,
        authAllowed (updateUserRole db now s.userId newRole) (some s) roles =
          roles.contains newRole) := by
  constructor
  · rfl
  · intro u hg hne newRole
    have hp : ∀ x : User,
        (decide ((if x.id = s.userId then
            { x with role := newRole, updatedAt := now } else x).id
          = s.userId)) = decide (x.id = s.userId) := by
      intro x
      by_cases hx : x.id = s.userId <;> simp [hx]
    have huid : u.id = s.userId := (getUser_mem hg).2
    have hg' : getUser (updateUserRole db now s.userId newRole) s.userId =
        some { u with role := newRole, updatedAt := now } := by
      show (db.users.map (fun x => if x.id = s.userId then
          { x with role := newRole, updatedAt := now } else x)).find?
            (fun x => x.id = s.userId) = _
      rw [find?_map_pres _ _ hp db.users]
      have hg0 : db.users.find? (fun x => x.id = s.userId) = some u := hg
      rw [hg0, Option.map_some']
      simp [huid]
    have hauth' : requireAuth (updateUserRole db now s.userId newRole)
        (some s) = .ok { u with role := newRole, updatedAt := now } := by
      simp [requireAuth, hne, hg']
    cases hc : roles.contains newRole with
    | true =>
      unfold authAllowed
      rw [authRole_ok_of roles hauth' hc]
    | false =>
      unfold authAllowed
      rw [authRole_forbidden_of roles hauth' hc]

/-- Witness for the amended C6 at concrete inputs. -/
theorem authorization_ignores_role_snapshot_witness :
    (authRole dbC6 (some ⟨"u6c", "stale"⟩) ["admin"] =
      authRole dbC6 (some ⟨"u6c", "normal"⟩) ["admin"]) ∧
    getUser dbC6 "u6c" = some (mkUser "u6c" "normal") ∧
    authAllowed (updateUserRole dbC6 5 "u6c" "admin")
      (some ⟨"u6c", "normal"⟩) ["admin"] = ["admin"].contains "admin" :=
  ⟨(authorization_ignores_role_snapshot dbC6 5 ⟨"u6c", "normal"⟩ "stale"
      ["admin"]).1,
   by rfl,
   (authorization_ignores_role_snapshot dbC6 5 ⟨"u6c", "normal"⟩ "stale"
      ["admin"]).2 (mkUser "u6c" "normal") (by rfl) (by decide) "admin"⟩

/-! ### Claim C7 -/

/-- C7: with the role gate passed, a store owner requesting ratings for a
store they do not own receives 403 "Access denied" — the same status and
shape as a role failure, not 404 NotFound — and no rating data; and a
caller failing the role check is answered with the role-failure response
before any ownership or store lookup is consulted. -/
theorem ownerStoreRatings_denies_nonowner (db : DB)
    (sess : Option SessionData) (u : User) (sid : Nat)
    (hauth : requireAuth db sess = .ok u) :
    (u.role = "store_owner" →
      ∀ st, getStoreById db sid = some st → st.ownerId ≠ some u.id →
        ownerStoreRatings db sess sid =
          .error (.forbidden "Access denied") ∧
        (ApiError.forbidden "Access denied").status =
          (ApiError.forbidden "Insufficient permissions").status ∧
        (ApiError.forbidden "Access denied").status ≠ 404) ∧
    (u.role ≠ "store_owner" →
      ownerStoreRatings db sess sid =
        .error (.forbidden "Insufficient permissions")) := by
  constructor
  · intro hrole st hst hne
    have hA : authRole db sess ["store_owner"] = .ok u :=
      authRole_ok_of ["store_owner"] hauth (by rw [hrole]; rfl)
    refine ⟨?_, rfl, by decide⟩
    simp [ownerStoreRatings, hA, hst, hne]
  · intro hrole
    have hA : authRole db sess ["store_owner"] =
        .error (.forbidden "Insufficient permissions") :=
      authRole_forbidden_of ["store_owner"] hauth (by simp [hrole])
    simp [ownerStoreRatings, hA]

/-- Database used for the C7 witness: two store owners; store 7 belongs
to "ob". -/
def dbC7 : DB :=
  { users := [mkUser "oa" "store_owner", mkUser "ob" "store_owner",
              mkUser "n7" "normal"],
    stores := [mkStore 7 (some "ob")], ratings := [], nextRatingId := 1 }

/-- Witness for C7: owner "oa" is denied on "ob"'s store with the 403
shape, and a normal user is stopped by the role gate first. -/
theorem ownerStoreRatings_denies_nonowner_witness :
    ownerStoreRatings dbC7 (some ⟨"oa", "store_owner"⟩) 7 =
      .error (.forbidden "Access denied") ∧
    (ApiError.forbidden "Access denied").status =
      (ApiError.forbidden "Insufficient permissions").status ∧
    ownerStoreRatings dbC7 (some ⟨"n7", "normal"⟩) 7 =
      .error (.forbidden "Insufficient permissions") :=
  ⟨((ownerStoreRatings_denies_nonowner dbC7 (some ⟨"oa", "store_owner"⟩)
        (mkUser "oa" "store_owner") 7 (by rfl)).1 rfl (mkStore 7 (some "ob"))
        (by rfl) (by decide)).1,
   rfl,
   (ownerStoreRatings_denies_nonowner dbC7 (some ⟨"n7", "normal"⟩)
      (mkUser "n7" "normal") 7 (by rfl)).2 (by decide)⟩

/-! ### Claim C8 -/

/-- C8 (amended): an authenticated user whose supplied current password
does not verify against the stored hash is answered with
400 "Current password is incorrect" — a bad-request response, not 403
PermissionDenied — and the database, in particular the stored credential
hash, is unchanged by the failed call. -/
theorem changePassword_wrong_current (db : DB) (now : Nat)
    (verify : String → String → Bool) (hashFn : String → String)
    (sess : Option SessionData) (u : User) (body : PasswordBody)
    (hauth : requireAuth db sess = .ok u)
    (hval : updatePasswordValid body = true)
    (hwrong : ∀ h, u.password = some h →
      verify body.currentPassword h = false) :
    putPassword db now verify hashFn sess body =
      (.error (.badRequest "Current password is incorrect"), db) ∧
    (ApiError.badRequest "Current password is incorrect").status = 400 := by
  have hgu : getUser db u.id = some u := by
    obtain ⟨s, rfl, hg⟩ := requireAuth_ok_getUser hauth
    obtain ⟨_, huid⟩ := getUser_mem hg
    rw [huid]
    exact hg
  have hup : updatePassword db now verify hashFn u.id body.currentPassword
      body.newPassword = (false, db) := by
    unfold updatePassword
    rw [hgu]
    cases hpw : u.password with
    | none => simp [hpw]
    | some h => simp [hpw, hwrong h hpw]
  refine ⟨?_, rfl⟩
  simp [putPassword, hauth, hval, hup]

/-- Database used for the C8 instances; `mkUser` stores the credential
hash "storedhash". -/
def dbC8 : DB :=
  { users := [mkUser "u8" "normal"], stores := [], ratings := [],
    nextRatingId := 1 }

/-- Counterexample to C8 as stated: with plain string equality as the
concrete verifier, a wrong current password is answered with status 400,
not 403 PermissionDenied. -/
theorem changePassword_status_cex :
    putPassword dbC8 0 (fun p h => p == h) (fun s => s)
      (some ⟨"u8", "normal"⟩) ⟨"WrongPass0!", "Abcdefg!"⟩ =
      (.error (.badRequest "Current password is incorrect"), dbC8) ∧
    (ApiError.badRequest "Current password is incorrect").status ≠ 403 :=
  ⟨by rfl, by decide⟩

/-- Witness for the amended C8 at concrete inputs. -/
theorem changePassword_wrong_current_witness :
    requireAuth dbC8 (some ⟨"u8", "normal"⟩) = .ok (mkUser "u8" "normal") ∧
    updatePasswordValid ⟨"WrongPass0!", "Abcdefg!"⟩ = true ∧
    putPassword dbC8 0 (fun p h => p == h) (fun s => s)
      (some ⟨"u8", "normal"⟩) ⟨"WrongPass0!", "Abcdefg!"⟩ =
      (.error (.badRequest "Current password is incorrect"), dbC8) :=
  ⟨by rfl, by rfl,
   (changePassword_wrong_current dbC8 0 (fun p h => p == h) (fun s => s)
      (some ⟨"u8", "normal"⟩) (mkUser "u8" "normal")
      ⟨"WrongPass0!", "Abcdefg!"⟩ (by rfl) (by rfl)
      (fun h hh => by cases hh; rfl)).1⟩

/-! ### Claim C9 -/

/-- C9: a successful public registration always creates the user with
role "normal" and issues a session whose role snapshot is "normal",
whatever role the request body supplied. -/
theorem register_forces_normal_role (db : DB) (now : Nat) (freshId : String)
    (hashFn : String → String) (body : RegisterBody) (u : User)
    (sess : SessionData) (db' : DB)
    (h : register db now freshId hashFn body = (.ok (u, sess), db')) :
    u.role = "normal" ∧ sess.userRole = "normal" := by
  unfold register at h
  cases hv : insertUserValid body with
  | false => simp [hv] at h
  | true =>
    rw [if_pos hv] at h
    cases hge : getUserByEmail db body.email with
    | some w => rw [hge] at h; simp at h
    | none =>
      rw [hge] at h
      simp only [createLocalUser, Prod.mk.injEq, Except.ok.injEq] at h
      obtain ⟨⟨hu, hsess⟩, _⟩ := h
      rw [← hu, ← hsess]
      exact ⟨rfl, rfl⟩

/-- Empty database used by the C9 and C10 instances. -/
def dbEmpty : DB :=
  { users := [], stores := [], ratings := [], nextRatingId := 1 }

/-- Registration body that tries to claim the "admin" role. -/
def bodyC9 : RegisterBody :=
  { name := "Registration Attack User Name", email := "eve@example.com",
    address := "3 Side Street", password := "Abcdefg!",
    role := some "admin" }

/-- User row the sample registration creates. -/
def userC9 : User :=
  { id := "local_1", email := some "eve@example.com", firstName := none,
    lastName := none, profileImageUrl := none,
    name := some "Registration Attack User Name",
    address := some "3 Side Street", password := some "Abcdefg!",
    role := "normal", createdAt := 0, updatedAt := 0 }

/-- Witness for C9: a body requesting role "admin" still yields a
"normal" user and a "normal" session snapshot. -/
theorem register_forces_normal_role_witness :
    bodyC9.role = some "admin" ∧
    register dbEmpty 0 "local_1" (fun s => s) bodyC9 =
      (.ok (userC9, ⟨"local_1", "normal"⟩),
       { users := [userC9], stores := [], ratings := [],
         nextRatingId := 1 }) ∧
    userC9.role = "normal" ∧
    (⟨"local_1", "normal"⟩ : SessionData).userRole = "normal" :=
  ⟨rfl, by rfl,
   register_forces_normal_role dbEmpty 0 "local_1" (fun s => s) bodyC9
     userC9 ⟨"local_1", "normal"⟩
     { users := [userC9], stores := [], ratings := [], nextRatingId := 1 }
     (by rfl)⟩

/-! ### Claim C10 -/

/-- C10: a session whose stored userId no longer resolves to a user row —
for example after the admin delete-user route removed the user — is
rejected by `requireAuth` with 401 "User not found" before any handler
logic runs: every authenticated operation returns the Unauthenticated
response and leaves the database unchanged. -/
theorem dangling_session_rejected (db : DB) (s : SessionData)
    (hnone : getUser db s.userId = none) (hne : s.userId ≠ "")
    (now : Nat) (body : RatingBody) (pbody : PasswordBody)
    (verify : String → String → Bool) (hashFn : String → String)
    (sid : Nat) :
    requireAuth db (some s) = .error (.unauthenticated "User not found") ∧
    postRatings db now (some s) body =
      (.error (.unauthenticated "User not found"), db) ∧
    putPassword db now verify hashFn (some s) pbody =
      (.error (.unauthenticated "User not found"), db) ∧
    ownerStoreRatings db (some s) sid =
      .error (.unauthenticated "User not found") ∧
    adminStats db (some s) = .error (.unauthenticated "User not found") ∧
    deleteStoreRoute db (some s) sid =
      (.error (.unauthenticated "User not found"), db) := by
  have hra : requireAuth db (some s) =
      .error (.unauthenticated "User not found") := by
    simp [requireAuth, hne, hnone]
  have hAR : ∀ roles, authRole db (some s) roles =
      .error (.unauthenticated "User not found") := by
    intro roles
    unfold authRole
    rw [hra]
  exact ⟨hra, by simp [postRatings, hAR], by simp [putPassword, hra],
    by simp [ownerStoreRatings, hAR], by simp [adminStats, hAR],
    by simp [deleteStoreRoute, hAR]⟩

/-- Database used for the C10 witness, before the user deletion. -/
def dbC10 : DB :=
  { users := [mkUser "u10" "normal"], stores := [], ratings := [],
    nextRatingId := 1 }

/-- Witness for C10: after `deleteUser` removes "u10", the session still
holding that id is rejected everywhere with 401. -/
theorem dangling_session_rejected_witness :
    deleteUser dbC10 "u10" = .ok dbEmpty ∧
    getUser dbEmpty "u10" = none ∧
    requireAuth dbEmpty (some ⟨"u10", "normal"⟩) =
      .error (.unauthenticated "User not found") ∧
    postRatings dbEmpty 0 (some ⟨"u10", "normal"⟩) ⟨1, 4⟩ =
      (.error (.unauthenticated "User not found"), dbEmpty) ∧
    adminStats dbEmpty (some ⟨"u10", "normal"⟩) =
      .error (.unauthenticated "User not found") :=
  have h := dangling_session_rejected dbEmpty ⟨"u10", "normal"⟩ (by rfl)
    (by decide) 0 ⟨1, 4⟩ ⟨"a", "b"⟩ (fun p h => p == h) (fun s => s) 1
  ⟨by rfl, by rfl, h.1, h.2.1, h.2.2.2.2.1⟩

end TaskTracker
